import Mathlib

/-!
Verification development for the now-playing sidecar's Roon client
(src/sidecar/src/roon/client.ts: the RoonClient connection state machine
and the TransportManager zone/now-playing logic).  The TypeScript code is
shallowly embedded: each class's mutable fields become a state structure,
each method becomes a function from state (and inputs) to state plus the
events it emits; JavaScript truthiness and strict equality on optional
strings are modelled explicitly.
-/

namespace NowPlaying

/-! ## JavaScript value helpers -/

/-- JS `x || d` on a `string | undefined | null` value: `undefined`, `null`
and the empty string are falsy, any other string is returned unchanged. -/
def jsOrStr (o : Option String) (d : String) : String :=
  match o with
  | some s => if s = "" then d else s
  | none => d

/-- JS `x || ''` on an optional string line (used for `line1 || ''` etc.).
`undefined` and `""` both yield `""`. -/
def orEmpty (o : Option String) : String :=
  match o with
  | some s => s
  | none => ""

/-- First-match association-list lookup (JS object property read /
cache lookup keyed by string). -/
def lookupBy {α : Type} (k : String) : List (String × α) → Option α
  | [] => none
  | (k0, v) :: rest => if k0 = k then some v else lookupBy k rest

/-- JS truthiness test `arr && arr.length > 0` for an optional array. -/
def nonemptyList {α : Type} : Option (List α) → Bool
  | some l => !l.isEmpty
  | none => false

/-- JS truthiness of a `string | null` value (`if (this.currentZoneId)`):
null and the empty string are falsy, any other string is truthy. -/
def strTruthy : Option String → Bool
  | some s => s != ""
  | none => false

/-! ## Data model (transport.ts interfaces) -/

/-- `three_line` metadata structure; the lines are optional to model the
defensive `|| ''` reads in the source. -/
structure ThreeLine where
  line1 : Option String
  line2 : Option String
  line3 : Option String
deriving DecidableEq, Repr

/-- `two_line` metadata structure. -/
structure TwoLine where
  line1 : Option String
  line2 : Option String
deriving DecidableEq, Repr

/-- `one_line` metadata structure. -/
structure OneLine where
  line1 : Option String
deriving DecidableEq, Repr

/-- `NowPlayingData` from transport.ts (seek position and length are never
read by the extraction code and are omitted). -/
structure NowPlayingData where
  image_key : Option String
  one_line : Option OneLine
  two_line : Option TwoLine
  three_line : Option ThreeLine
deriving DecidableEq, Repr

/-- `Zone` from transport.ts (`outputs` is never read and is omitted). -/
structure Zone where
  zone_id : String
  display_name : String
  state : Option String
  now_playing : Option NowPlayingData
deriving DecidableEq, Repr

/-- `ZonesData` from transport.ts: the payload of a zone subscription
callback.  `none` models an absent (undefined) field; the elements of
`zones_seek_changed` are never inspected beyond the length check. -/
structure ZonesData where
  zones : Option (List Zone)
  zones_changed : Option (List Zone)
  zones_removed : Option (List String)
  zones_seek_changed : Option (List Unit)
deriving DecidableEq, Repr

/-- The now-playing snapshot handed to `output.emitNowPlaying` by
`extractAndEmitNowPlaying`: title, artist, album, the mapped playback
state string, and the optional artwork payload. -/
structure Snapshot where
  title : String
  artist : String
  album : String
  state : String
  artwork : Option String
deriving DecidableEq, Repr

/-! ## ImageManager (spec-modelled) -/

/-- Modelled from the spec: the repository's `ImageManager`
(src/sidecar/src/roon/image.ts is not under src/).  Spec section 2
(ArtworkFetcher): "given an image key, fetch/cache encoded artwork,
deduplicating repeat requests for the same key"; section 4.2: "if
unchanged, still resolve through cache to keep output consistent, but
avoid a duplicate network fetch (cache hit)".  The state is the stored
image service reference plus a cache from image keys to encoded artwork. -/
structure ImageManager where
  imageService : Bool
  cache : List (String × String)
deriving DecidableEq, Repr

/-- Modelled from the spec: `ImageManager.fetchArtwork`
(src/sidecar/src/roon/image.ts is not under src/).  With no image service
(spec section 7(b), missing-capability: degraded, no artwork), the result is
`none` and nothing is fetched.  Otherwise a cached key is answered from the
cache with no network request; an uncached key is fetched from the network
(`net` models the network's answer) and stored.  The third component lists
the keys actually fetched over the network by this call. -/
def fetchArtwork (net : String → String) (im : ImageManager) (key : String) :
    Option String × ImageManager × List String :=
  if im.imageService = false then (none, im, [])
  else
    match lookupBy key im.cache with
    | some art => (some art, im, [])
    | none => (some (net key), ⟨im.imageService, (key, net key) :: im.cache⟩, [key])

/-- Modelled from the spec: `ImageManager.clearImageService`
(src/sidecar/src/roon/image.ts is not under src/).  Spec section 4.1: stop and
unpair "clear downstream service references"; the stored image service
reference is dropped. -/
def clearImageService (im : ImageManager) : ImageManager :=
  { im with imageService := false }

/-- `ImageManager.setImageService`: stores the image service reference
(called from `initializeServices`). -/
def setImageService (im : ImageManager) : ImageManager :=
  { im with imageService := true }

/-! ## TransportManager (transport.ts) -/

/-- The mutable fields of `TransportManager`: the stored transport service
reference (modelled as its presence), the cached current zone id and the
last emitted image key. -/
structure TMState where
  transportService : Bool
  currentZoneId : Option String
  lastImageKey : Option String
deriving DecidableEq, Repr

/-- `TransportManager.clearTransportService`: drops the service reference
and resets `currentZoneId` and `lastImageKey` to null. -/
def clearTransportService (_st : TMState) : TMState :=
  ⟨false, none, none⟩

/-- `TransportManager.setTransportService`: stores the service reference
(the zone subscription it starts is modelled by feeding `ZonesData`
payloads to `handleZonesUpdate`). -/
def setTransportService (st : TMState) : TMState :=
  { st with transportService := true }

/-- The empty stopped snapshot `output.emitNowPlaying('', '', '', 'stopped')`. -/
def emptySnapshot : Snapshot :=
  ⟨"", "", "", "stopped", none⟩

/-- The metadata extraction of `extractAndEmitNowPlaying`: prefer
`three_line`, then `two_line`, then `one_line`; each present line is read
with `|| ''`, absent structures leave the remaining fields `''`. -/
def extractMeta (np : NowPlayingData) : String × String × String :=
  match np.three_line with
  | some t => (orEmpty t.line1, orEmpty t.line2, orEmpty t.line3)
  | none =>
    match np.two_line with
    | some t => (orEmpty t.line1, orEmpty t.line2, "")
    | none =>
      match np.one_line with
      | some o => (orEmpty o.line1, "", "")
      | none => ("", "", "")

/-- The nested ternary mapping the zone state string to the emitted
playback state: `'playing'` and `'paused'` pass through, everything else
becomes `'stopped'`. -/
def mapPlayback (state : String) : String :=
  if state = "playing" then "playing"
  else if state = "paused" then "paused"
  else "stopped"

/-- The result of one `extractAndEmitNowPlaying` run: the emitted
snapshot, the updated `TransportManager` and `ImageManager` states, and
the image keys fetched over the network during the run. -/
structure ExtractResult where
  snap : Snapshot
  tm : TMState
  im : ImageManager
  fetched : List String
deriving DecidableEq, Repr

/-- `TransportManager.extractAndEmitNowPlaying`.  A missing `now_playing`
or a (defaulted) `'stopped'` state emits the empty stopped snapshot and
nulls `lastImageKey`.  Otherwise metadata is extracted by precedence and
artwork is handled by the source's branch chain on
`imageKey && imageKey !== this.lastImageKey` (JS truthiness: a present
non-empty key; strict inequality against the `string | null` field) and
`imageKey === this.lastImageKey` (true only when both are equal strings,
since `undefined === null` is false): a new key is fetched and recorded in
`lastImageKey`, an unchanged key is resolved again through the manager
(cache), anything else leaves the artwork undefined. -/
def extractAndEmitNowPlaying (net : String → String) (im : ImageManager)
    (st : TMState) (zone : Zone) : ExtractResult :=
  match zone.now_playing with
  | none => ⟨emptySnapshot, { st with lastImageKey := none }, im, []⟩
  | some np =>
    if jsOrStr zone.state "stopped" = "stopped" then
      ⟨emptySnapshot, { st with lastImageKey := none }, im, []⟩
    else
      match np.image_key with
      | none =>
        ⟨⟨(extractMeta np).1, (extractMeta np).2.1, (extractMeta np).2.2,
          mapPlayback (jsOrStr zone.state "stopped"), none⟩, st, im, []⟩
      | some k =>
        if k ≠ "" ∧ st.lastImageKey ≠ some k then
          ⟨⟨(extractMeta np).1, (extractMeta np).2.1, (extractMeta np).2.2,
            mapPlayback (jsOrStr zone.state "stopped"), (fetchArtwork net im k).1⟩,
            { st with lastImageKey := some k },
            (fetchArtwork net im k).2.1, (fetchArtwork net im k).2.2⟩
        else if st.lastImageKey = some k then
          ⟨⟨(extractMeta np).1, (extractMeta np).2.1, (extractMeta np).2.2,
            mapPlayback (jsOrStr zone.state "stopped"), (fetchArtwork net im k).1⟩,
            st, (fetchArtwork net im k).2.1, (fetchArtwork net im k).2.2⟩
        else
          ⟨⟨(extractMeta np).1, (extractMeta np).2.1, (extractMeta np).2.2,
            mapPlayback (jsOrStr zone.state "stopped"), none⟩, st, im, []⟩

/-- `zone.state === 'playing' || zone.state === 'paused'`: the predicate
of the `zones.find` call in `handleZonesUpdate`. -/
def isActiveZone (z : Zone) : Bool :=
  z.state == some "playing" || z.state == some "paused"

/-- `zones.find(...) || zones[0]` on the non-empty list `z :: rest`. -/
def selectZone (z : Zone) (rest : List Zone) : Zone :=
  ((z :: rest).find? isActiveZone).getD z

/-- The observable result of one `handleZonesUpdate` run: the snapshot
emitted (if any), the updated manager states, and the network-fetched
image keys. -/
structure UpdateResult where
  emitted : Option Snapshot
  tm : TMState
  im : ImageManager
  fetched : List String
deriving DecidableEq, Repr

/-- Packaging of an extraction run as an update result (the extraction
always emits its snapshot). -/
def updOfExtract (r : ExtractResult) : UpdateResult :=
  ⟨some r.snap, r.tm, r.im, r.fetched⟩

/-- `TransportManager.handleZonesUpdate`.  A seek-only delta (non-empty
`zones_seek_changed`, absent `zones` and `zones_changed`) returns at once.
The working list is `data.zones || data.zones_changed || []` (a present
empty array is truthy in JS and is taken as-is).  An empty list with a
non-empty `zones_removed` and a truthy cached current zone id
(`if (this.currentZoneId)`: null and the empty string are falsy) emits
the empty stopped snapshot and clears the cached zone id and last image
key.  A
non-empty list selects the first playing-or-paused zone (else the first
zone), caches its id and runs the extraction on it. -/
def handleZonesUpdate (net : String → String) (im : ImageManager)
    (st : TMState) (data : ZonesData) : UpdateResult :=
  if nonemptyList data.zones_seek_changed ∧ data.zones = none ∧ data.zones_changed = none then
    ⟨none, st, im, []⟩
  else
    match (data.zones).getD ((data.zones_changed).getD []) with
    | [] =>
      if nonemptyList data.zones_removed then
        if strTruthy st.currentZoneId then
          ⟨some emptySnapshot, { st with currentZoneId := none, lastImageKey := none }, im, []⟩
        else ⟨none, st, im, []⟩
      else ⟨none, st, im, []⟩
    | z :: rest =>
      updOfExtract (extractAndEmitNowPlaying net im
        { st with currentZoneId := some (selectZone z rest).zone_id } (selectZone z rest))

/-- Sequential processing of a list of selected zones by
`extractAndEmitNowPlaying`, threading the manager states and
concatenating the network-fetched keys. -/
def processZones (net : String → String) (im : ImageManager) (st : TMState) :
    List Zone → TMState × ImageManager × List String
  | [] => (st, im, [])
  | z :: rest =>
    ((processZones net (extractAndEmitNowPlaying net im st z).im
        (extractAndEmitNowPlaying net im st z).tm rest).1,
     (processZones net (extractAndEmitNowPlaying net im st z).im
        (extractAndEmitNowPlaying net im st z).tm rest).2.1,
     (extractAndEmitNowPlaying net im st z).fetched ++
       (processZones net (extractAndEmitNowPlaying net im st z).im
        (extractAndEmitNowPlaying net im st z).tm rest).2.2)

/-! ## RoonClient (client.ts) -/

/-- A paired core as seen by the client: its display name and which of the
two capability services it carries. -/
structure Core where
  display_name : String
  hasTransport : Bool
  hasImage : Bool
deriving DecidableEq, Repr

/-- An event written to the line-delimited JSON output channel
(`output.emitStatus` / `output.emitNowPlaying`); the five-string variant is
the sentinel-zone form used on unpairing. -/
inductive Event where
  | statusMsg (kind msg : String) : Event
  | nowPlayingSnap (snap : Snapshot) : Event
  | nowPlayingZone (zoneId title artist album state : String) : Event
deriving DecidableEq, Repr

/-- The `RECONNECT_CONFIG.initialDelayMs` constant (1 second). -/
def initialDelayMs : Nat := 1000

/-- The `RECONNECT_CONFIG.maxDelayMs` constant (1 minute cap). -/
def maxDelayMs : Nat := 60000

/-- The `RECONNECT_CONFIG.multiplier` constant (doubling). -/
def multiplier : Nat := 2

/-- The backoff delay computed by `scheduleReconnect` from the current
attempt counter: `Math.min(initialDelayMs * multiplier ** attempt, maxDelayMs)`. -/
def reconnectDelay (attempt : Nat) : Nat :=
  min (initialDelayMs * multiplier ^ attempt) maxDelayMs

/-- The mutable fields of `RoonClient`: authorization flag, paired core,
reconnect attempt counter, the pending reconnect timer (modelled as the
delay it is armed with), the periodic connection-monitor interval
(modelled as its presence), and the two owned managers. -/
structure ClientState where
  isAuthorized : Bool
  currentCore : Option Core
  reconnectAttempt : Nat
  reconnectTimer : Option Nat
  connectionMonitor : Bool
  tm : TMState
  im : ImageManager
deriving DecidableEq, Repr

/-- The field initializers of the `RoonClient` constructor: unauthorized,
no core, attempt counter 0, no timers, empty managers. -/
def initialState : ClientState :=
  ⟨false, none, 0, none, false, ⟨false, none, none⟩, ⟨false, []⟩⟩

/-- `RoonClient.scheduleReconnect`: cancels any pending reconnect timer,
computes the backoff delay from the current attempt counter, increments
the counter afterwards, and arms a new one-shot timer (calling `start()`)
with that delay.  Returns the new state and the scheduled delay. -/
def scheduleReconnect (s : ClientState) : ClientState × Nat :=
  ({ s with reconnectAttempt := s.reconnectAttempt + 1,
            reconnectTimer := some (reconnectDelay s.reconnectAttempt) },
   reconnectDelay s.reconnectAttempt)

/-- `RoonClient.initializeServices`: hands each capability service present
on the paired core to its manager (a missing service only logs a warning). -/
def initializeServices (core : Core) (s : ClientState) : ClientState :=
  { s with
    tm := if core.hasTransport then setTransportService s.tm else s.tm,
    im := if core.hasImage then setImageService s.im else s.im }

/-- `RoonClient.handleCorePaired`: records authorization and the paired
core, resets the reconnect attempt counter to 0, emits a `connected`
status event, and initializes the services. -/
def handleCorePaired (core : Core) (s : ClientState) : ClientState × List Event :=
  (initializeServices core
     { s with isAuthorized := true, currentCore := some core, reconnectAttempt := 0 },
   [Event.statusMsg "connected" ("Connected to " ++ core.display_name)])

/-- `RoonClient.handleCoreUnpaired`: drops authorization and the core,
emits a `disconnected` status event, clears the transport and image
services, and emits the sentinel-zone stopped now-playing event.  It does
not touch the reconnect timer or the attempt counter. -/
def handleCoreUnpaired (s : ClientState) : ClientState × List Event :=
  ({ s with isAuthorized := false, currentCore := none,
            tm := clearTransportService s.tm, im := clearImageService s.im },
   [Event.statusMsg "disconnected" "Disconnected from Roon Core",
    Event.nowPlayingZone "__disconnected__" "" "" "" "stopped"])

/-- The `onclose` handler installed by `RoonClient.start` on the direct
websocket connection: emits a `disconnected` status event and schedules a
backoff reconnect.  It does not clear the managers' services.  Returns the
new state, the emitted events and the scheduled delay. -/
def onSocketClose (s : ClientState) : ClientState × List Event × Nat :=
  ((scheduleReconnect s).1,
   [Event.statusMsg "disconnected" "Connection to Roon Core lost"],
   (scheduleReconnect s).2)

/-- `RoonClient.startConnectionMonitor`: arms the periodic 30-second
interval unless one is already armed (duplicate guard). -/
def startConnectionMonitor (s : ClientState) : ClientState :=
  if s.connectionMonitor then s else { s with connectionMonitor := true }

/-- `RoonClient.stop`: cancels the pending reconnect timer and the
connection-monitor interval (setting both fields to null) and clears the
transport and image services. -/
def stop (s : ClientState) : ClientState :=
  { s with reconnectTimer := none, connectionMonitor := false,
           tm := clearTransportService s.tm, im := clearImageService s.im }

/-- True when some timer of the client is still armed (a pending reconnect
timeout or the periodic monitor interval): exactly the timer-driven
operations that could fire later. -/
def timersArmed (s : ClientState) : Bool :=
  s.reconnectTimer.isSome || s.connectionMonitor

/-- The delays scheduled by `n` consecutive `scheduleReconnect` calls with
no intervening pairing, in order. -/
def scheduleReconnectTrace (s : ClientState) : Nat → List Nat
  | 0 => []
  | n + 1 => (scheduleReconnect s).2 :: scheduleReconnectTrace (scheduleReconnect s).1 n

/-- The client state after `n` consecutive `scheduleReconnect` calls. -/
def iterateScheduleReconnect (s : ClientState) : Nat → ClientState
  | 0 => s
  | n + 1 => iterateScheduleReconnect (scheduleReconnect s).1 n

/-- The delays scheduled by `n` consecutive socket-close events with no
intervening pairing, in order. -/
def socketCloseDelays (s : ClientState) : Nat → List Nat
  | 0 => []
  | n + 1 => (onSocketClose s).2.2 :: socketCloseDelays (onSocketClose s).1 n

/-! ## Persisted state loader (get_persisted_state in client.ts) -/

/-- A JSON value as produced by `JSON.parse`, extended so that an array
can carry expando properties (a JS array is an object and accepts the
`state.tokens = {}` assignment); parse output always has an empty expando
list. -/
inductive Json where
  | jnull : Json
  | jbool : Bool → Json
  | jnum : Int → Json
  | jstr : String → Json
  | jarr : List Json → List (String × Json) → Json
  | jobj : List (String × Json) → Json

/-- JS truthiness of a JSON value: `null`, `false`, `0` and `""` are
falsy; every object or array is truthy. -/
def jsTruthy : Json → Bool
  | .jnull => false
  | .jbool b => b
  | .jnum n => n != 0
  | .jstr s => s != ""
  | .jarr _ _ => true
  | .jobj _ => true

/-- JS property assignment on an object's field list: replaces the
existing property in place, otherwise appends it. -/
def setField (fields : List (String × Json)) (k : String) (v : Json) :
    List (String × Json) :=
  match fields with
  | [] => [(k, v)]
  | (k0, v0) :: rest =>
    if k0 = k then (k0, v) :: rest else (k0, v0) :: setField rest k v

/-- The outcome of the config-file read in `get_persisted_state`: the file
is absent (`existsSync` false), reading or parsing threw, or parsing
produced a JSON value. -/
inductive ReadResult where
  | absent : ReadResult
  | readError : ReadResult
  | parsed : Json → ReadResult

/-- The fresh state `{ tokens: {} }` returned on every start-fresh path. -/
def emptyPersistedState : Json :=
  Json.jobj [("tokens", Json.jobj [])]

/-- `get_persisted_state` from client.ts.  Absent file and read/parse
errors return `{ tokens: {} }`.  A parsed object (or array) with a falsy
or missing `tokens` property gets `tokens` set to `{}` and is returned;
with a truthy `tokens` property it is returned unchanged.  A parsed
`null` throws on the `state.tokens` read and a parsed primitive throws on
the strict-mode `state.tokens = {}` assignment (its property read yields
`undefined`, which is falsy), so both are caught and fall through to
`{ tokens: {} }`. -/
def get_persisted_state (r : ReadResult) : Json :=
  match r with
  | .absent => emptyPersistedState
  | .readError => emptyPersistedState
  | .parsed j =>
    match j with
    | .jobj fields =>
      match lookupBy "tokens" fields with
      | some t =>
        if jsTruthy t then .jobj fields
        else .jobj (setField fields "tokens" (.jobj []))
      | none => .jobj (setField fields "tokens" (.jobj []))
    | .jarr elems extra =>
      match lookupBy "tokens" extra with
      | some t =>
        if jsTruthy t then .jarr elems extra
        else .jarr elems (setField extra "tokens" (.jobj []))
      | none => .jarr elems (setField extra "tokens" (.jobj []))
    | _ => emptyPersistedState

/-- The `tokens` property of a JSON value (`undefined` when absent or when
the value is not an object). -/
def tokensOf : Json → Option Json
  | .jobj fields => lookupBy "tokens" fields
  | .jarr _ extra => lookupBy "tokens" extra
  | _ => none

/-- Whether a JSON value is a non-null object in the JS sense (a plain
object or an array). -/
def isJsObject : Json → Bool
  | .jarr _ _ => true
  | .jobj _ => true
  | _ => false

/-! ## Reconnection backoff (C1, C2, C3, C9) -/

theorem scheduleReconnectTrace_eq (n : Nat) (s : ClientState) :
    scheduleReconnectTrace s n =
      (List.range n).map (fun i => reconnectDelay (s.reconnectAttempt + i)) := by
  induction n generalizing s with
  | zero => simp [scheduleReconnectTrace]
  | succ n ih =>
    rw [List.range_succ_eq_map, List.map_cons, List.map_map]
    rw [scheduleReconnectTrace, ih]
    refine congrArg₂ _ (by simp [scheduleReconnect]) ?_
    refine List.map_congr_left fun i _ => ?_
    simp only [Function.comp, scheduleReconnect]
    exact congrArg reconnectDelay (by omega)

theorem iterateScheduleReconnect_attempt (n : Nat) (s : ClientState) :
    (iterateScheduleReconnect s n).reconnectAttempt = s.reconnectAttempt + n := by
  induction n generalizing s with
  | zero => simp [iterateScheduleReconnect]
  | succ n ih =>
    rw [iterateScheduleReconnect, ih]
    simp [scheduleReconnect]
    omega

theorem reconnectDelay_mono {i j : Nat} (h : i ≤ j) :
    reconnectDelay i ≤ reconnectDelay j := by
  unfold reconnectDelay
  exact min_le_min
    (Nat.mul_le_mul_left _ (Nat.pow_le_pow_right (by norm_num [multiplier]) h)) le_rfl

/-- C1: n consecutive `scheduleReconnect` calls with no intervening pairing
schedule the delays min(initialDelayMs * multiplier^(k) , maxDelayMs) for
k = 0 .. n-1 (so the n-th delay uses exponent n-1); the attempt counter,
incremented only after the delay is computed, ends at n; the delay
sequence is monotone and capped at maxDelayMs; and three consecutive
socket-close events schedule 1000ms, 2000ms, 4000ms. -/
theorem claim_C1_reconnect_backoff (n : Nat) (s : ClientState)
    (h : s.reconnectAttempt = 0) :
    scheduleReconnectTrace s n = (List.range n).map reconnectDelay
    ∧ (∀ i, reconnectDelay i = min (initialDelayMs * multiplier ^ i) maxDelayMs)
    ∧ (iterateScheduleReconnect s n).reconnectAttempt = n
    ∧ (∀ i j, i ≤ j → reconnectDelay i ≤ reconnectDelay j)
    ∧ (∀ i, reconnectDelay i ≤ maxDelayMs)
    ∧ socketCloseDelays s 3 = [1000, 2000, 4000] := by
  refine ⟨?_, fun i => rfl, ?_, fun i j hij => reconnectDelay_mono hij,
    fun i => min_le_right _ _, ?_⟩
  · rw [scheduleReconnectTrace_eq, h]
    simp
  · rw [iterateScheduleReconnect_attempt, h, Nat.zero_add]
  · simp [socketCloseDelays, onSocketClose, scheduleReconnect, h, reconnectDelay,
      initialDelayMs, maxDelayMs, multiplier]

/-- Witness for C1 at n = 3 from the constructor state (attempt counter 0). -/
theorem claim_C1_reconnect_backoff_witness :
    initialState.reconnectAttempt = 0
    ∧ scheduleReconnectTrace initialState 3 = (List.range 3).map reconnectDelay :=
  ⟨rfl, (claim_C1_reconnect_backoff 3 initialState rfl).1⟩

/-- C2: a successful pairing resets the reconnect attempt counter to 0, so
the first reconnect scheduled after the next disconnect (directly or via
the socket-close handler) is computed with delay = initialDelayMs. -/
theorem claim_C2_pairing_resets_backoff (s : ClientState) (core : Core) :
    (handleCorePaired core s).1.reconnectAttempt = 0
    ∧ (scheduleReconnect (handleCorePaired core s).1).2 = initialDelayMs
    ∧ (onSocketClose (handleCorePaired core s).1).2.2 = initialDelayMs := by
  refine ⟨rfl, ?_, ?_⟩ <;>
    simp [handleCorePaired, initializeServices, scheduleReconnect, onSocketClose,
      reconnectDelay, initialDelayMs, multiplier, maxDelayMs]

/-- A concrete freshly paired client state (both services present, no
pending reconnect timer). -/
def pairedExample : ClientState :=
  (handleCorePaired ⟨"Test Core", true, true⟩ initialState).1

/-- C3 counterexample: at a freshly paired state, `handleCoreUnpaired`
leaves the reconnect timer unarmed (it never schedules a reconnect), and
the socket-close handler leaves the transport service in place (it never
clears services) — so the claimed conjunction of
"emits disconnected ∧ clears services ∧ schedules reconnect" fails on
each of the two triggers. -/
theorem claim_C3_counterexample :
    (handleCoreUnpaired pairedExample).1.reconnectTimer = none
    ∧ (onSocketClose pairedExample).1.tm.transportService = true := by
  exact ⟨rfl, rfl⟩

/-- C3 (amended): on pairing loss `handleCoreUnpaired` emits a
disconnected status event and clears the transport and image services but
leaves the reconnect timer untouched (it does not schedule a reconnect);
on socket close the handler emits a disconnected status event and arms
the backoff reconnect timer (calling start()) but leaves the transport
and image services untouched. -/
theorem claim_C3_disconnect_behavior (s : ClientState) :
    (handleCoreUnpaired s).2 =
      [Event.statusMsg "disconnected" "Disconnected from Roon Core",
       Event.nowPlayingZone "__disconnected__" "" "" "" "stopped"]
    ∧ (handleCoreUnpaired s).1.tm = ⟨false, none, none⟩
    ∧ (handleCoreUnpaired s).1.im.imageService = false
    ∧ (handleCoreUnpaired s).1.reconnectTimer = s.reconnectTimer
    ∧ (onSocketClose s).2.1 =
        [Event.statusMsg "disconnected" "Connection to Roon Core lost"]
    ∧ (onSocketClose s).1.reconnectTimer = some (reconnectDelay s.reconnectAttempt)
    ∧ (onSocketClose s).1.tm = s.tm
    ∧ (onSocketClose s).1.im = s.im :=
  ⟨rfl, rfl, rfl, rfl, rfl, rfl, rfl, rfl⟩

/-- C9: from every state, `stop()` cancels the pending reconnect timer and
the periodic connection monitor (both fields become null) and clears the
transport and image service references, so no timer of the client remains
armed after `stop()`. -/
theorem claim_C9_stop_cancels_timers (s : ClientState) :
    (stop s).reconnectTimer = none
    ∧ (stop s).connectionMonitor = false
    ∧ (stop s).tm = ⟨false, none, none⟩
    ∧ (stop s).im.imageService = false
    ∧ timersArmed (stop s) = false :=
  ⟨rfl, rfl, rfl, rfl, rfl⟩

/-! ## Zone update handling (C5, C6) -/

/-- C5: a seek-only delta (non-empty `zones_seek_changed`, absent `zones`
and `zones_changed` fields) emits no snapshot and leaves the whole
transport state — in particular the cached current zone id and last image
key — and the image manager unchanged, with no network fetch. -/
theorem claim_C5_seek_only_ignored (net : String → String) (im : ImageManager)
    (st : TMState) (seek : List Unit) (removed : Option (List String))
    (h : seek ≠ []) :
    handleZonesUpdate net im st ⟨none, none, removed, some seek⟩ =
      ⟨none, st, im, []⟩ := by
  unfold handleZonesUpdate
  rw [if_pos]
  refine ⟨?_, rfl, rfl⟩
  simp [nonemptyList, h]

/-- Witness for C5: a seek-only update with one entry leaves a cached zone
and image key untouched and emits nothing. -/
theorem claim_C5_seek_only_ignored_witness :
    ([()] : List Unit) ≠ []
    ∧ handleZonesUpdate (fun _ => "") ⟨false, []⟩ ⟨true, some "z1", some "k"⟩
        ⟨none, none, none, some [()]⟩ =
        ⟨none, ⟨true, some "z1", some "k"⟩, ⟨false, []⟩, []⟩ :=
  ⟨by decide,
   claim_C5_seek_only_ignored (fun _ => "") ⟨false, []⟩ ⟨true, some "z1", some "k"⟩
     [()] none (by decide)⟩

/-- A zones update carrying both a removal and a seek change, with the
`zones` and `zones_changed` fields absent. -/
def seekAndRemovedData : ZonesData := ⟨none, none, some ["z1"], some [()]⟩

/-- C6 counterexample: an update with non-empty `zones_removed`, no
`zones` and no `zones_changed` — but with a non-empty `zones_seek_changed`
— hits the seek-only early return first: nothing is emitted and the cached
current zone id and last image key are NOT cleared, contradicting the
claim at this input.  Likewise, with a cached but empty-string zone id
(falsy under the source's `if (this.currentZoneId)` guard) a plain
removal update emits and clears nothing even though a current zone id is
cached. -/
theorem claim_C6_counterexample :
    (handleZonesUpdate (fun _ => "") ⟨true, []⟩ ⟨true, some "z1", some "k"⟩
        seekAndRemovedData).emitted = none
    ∧ (handleZonesUpdate (fun _ => "") ⟨true, []⟩ ⟨true, some "z1", some "k"⟩
        seekAndRemovedData).tm = ⟨true, some "z1", some "k"⟩
    ∧ (handleZonesUpdate (fun _ => "") ⟨true, []⟩ ⟨true, some "", some "k"⟩
        ⟨none, none, some ["z1"], none⟩).emitted = none
    ∧ (handleZonesUpdate (fun _ => "") ⟨true, []⟩ ⟨true, some "", some "k"⟩
        ⟨none, none, some ["z1"], none⟩).tm = ⟨true, some "", some "k"⟩ := by
  exact ⟨rfl, rfl, rfl, rfl⟩

/-- C6 (amended): an update with a non-empty `zones_removed`, absent
`zones` and `zones_changed` fields, and an absent or empty
`zones_seek_changed`, emits the empty stopped snapshot and clears both
the cached current zone id and the last image key, whenever the cached
current zone id is JS-truthy (present and non-empty). -/
theorem claim_C6_zones_removed_clears (net : String → String) (im : ImageManager)
    (st : TMState) (removed : List String) (zsk : Option (List Unit))
    (h1 : removed ≠ []) (h2 : strTruthy st.currentZoneId = true)
    (h3 : zsk = none ∨ zsk = some []) :
    handleZonesUpdate net im st ⟨none, none, some removed, zsk⟩ =
      ⟨some emptySnapshot, { st with currentZoneId := none, lastImageKey := none },
       im, []⟩ := by
  rcases h3 with h3 | h3 <;> subst h3 <;>
    cases removed with
    | nil => exact absurd rfl h1
    | cons a as =>
      rcases hz : st.currentZoneId with _ | z
      · rw [hz] at h2
        simp [strTruthy] at h2
      · rw [hz] at h2
        simp [handleZonesUpdate, nonemptyList, hz, h2]

/-- Witness for C6 (amended): removing the current zone with no other
fields populated clears the cached state and emits the stopped snapshot. -/
theorem claim_C6_zones_removed_clears_witness :
    (["z1"] : List String) ≠ []
    ∧ strTruthy (some "z1") = true
    ∧ handleZonesUpdate (fun _ => "") ⟨false, []⟩ ⟨true, some "z1", some "k"⟩
        ⟨none, none, some ["z1"], none⟩ =
        ⟨some emptySnapshot, ⟨true, none, none⟩, ⟨false, []⟩, []⟩ :=
  ⟨by decide, by decide,
   claim_C6_zones_removed_clears (fun _ => "") ⟨false, []⟩ ⟨true, some "z1", some "k"⟩
     ["z1"] none (by decide) (by decide) (Or.inl rfl)⟩

/-! ## Playback state mapping (C10) -/

theorem extract_snap_state (net : String → String) (im : ImageManager)
    (st : TMState) (zone : Zone) :
    (extractAndEmitNowPlaying net im st zone).snap.state =
      if zone.now_playing.isSome = true ∧ jsOrStr zone.state "stopped" ≠ "stopped"
      then mapPlayback (jsOrStr zone.state "stopped") else "stopped" := by
  rcases hnp : zone.now_playing with _ | np
  · simp [extractAndEmitNowPlaying, hnp, emptySnapshot]
  · by_cases hs : jsOrStr zone.state "stopped" = "stopped"
    · simp [extractAndEmitNowPlaying, hnp, hs, emptySnapshot]
    · rcases hik : np.image_key with _ | k
      · simp [extractAndEmitNowPlaying, hnp, hs, hik]
      · simp only [extractAndEmitNowPlaying, hnp, hik]
        rw [if_neg hs]
        have hR : (some np).isSome = true ∧ jsOrStr zone.state "stopped" ≠ "stopped" :=
          ⟨rfl, hs⟩
        rw [if_pos hR]
        split_ifs <;> rfl

theorem mapPlayback_cases (s : String) :
    mapPlayback s = "playing" ∨ mapPlayback s = "paused" ∨ mapPlayback s = "stopped" := by
  unfold mapPlayback
  split_ifs <;> simp

/-- A zone whose state is `'playing'` but which carries no `now_playing`
payload. -/
def playingNoPayloadZone : Zone := ⟨"z1", "Zone", some "playing", none⟩

/-- C10 counterexample: a zone with state `'playing'` but no `now_playing`
payload is emitted with state `'stopped'`, not passed through as
`'playing'` — the pass-through clause of the claim fails at this input. -/
theorem claim_C10_counterexample :
    (extractAndEmitNowPlaying (fun _ => "") ⟨true, []⟩ ⟨true, none, none⟩
        playingNoPayloadZone).snap.state = "stopped"
    ∧ (extractAndEmitNowPlaying (fun _ => "") ⟨true, []⟩ ⟨true, none, none⟩
        playingNoPayloadZone).snap.state ≠ "playing" := by
  exact ⟨rfl, by decide⟩

/-- C10 (amended): every emitted snapshot state is one of `'playing'`,
`'paused'`, `'stopped'`; a zone state of `'playing'` or `'paused'` is
passed through provided a `now_playing` payload is present (without one
the empty `'stopped'` snapshot is emitted); any other zone state —
unknown values like `'loading'`, the empty string, or an absent state —
is emitted as `'stopped'`. -/
theorem claim_C10_playback_state_invariant (net : String → String)
    (im : ImageManager) (st : TMState) (zone : Zone) :
    ((extractAndEmitNowPlaying net im st zone).snap.state = "playing"
      ∨ (extractAndEmitNowPlaying net im st zone).snap.state = "paused"
      ∨ (extractAndEmitNowPlaying net im st zone).snap.state = "stopped")
    ∧ (zone.state = some "playing" → zone.now_playing.isSome = true →
        (extractAndEmitNowPlaying net im st zone).snap.state = "playing")
    ∧ (zone.state = some "paused" → zone.now_playing.isSome = true →
        (extractAndEmitNowPlaying net im st zone).snap.state = "paused")
    ∧ (∀ s0, zone.state = some s0 → s0 ≠ "playing" → s0 ≠ "paused" →
        (extractAndEmitNowPlaying net im st zone).snap.state = "stopped")
    ∧ (zone.state = none →
        (extractAndEmitNowPlaying net im st zone).snap.state = "stopped") := by
  rw [extract_snap_state net im st zone]
  refine ⟨?_, ?_, ?_, ?_, ?_⟩
  · split_ifs
    · exact mapPlayback_cases _
    · simp
  · intro hs hnp
    rw [if_pos ⟨hnp, by simp [hs, jsOrStr]⟩]
    simp [hs, jsOrStr, mapPlayback]
  · intro hs hnp
    rw [if_pos ⟨hnp, by simp [hs, jsOrStr]⟩]
    simp [hs, jsOrStr, mapPlayback]
  · intro s0 hs hp hq
    by_cases h0 : s0 = ""
    · subst h0
      rw [if_neg (by simp [hs, jsOrStr])]
    · split_ifs with hcond
      · simp [hs, jsOrStr, h0, mapPlayback, hp, hq]
      · rfl
  · intro hs
    rw [if_neg (by simp [hs, jsOrStr])]

/-- A zone whose state is an unknown value `'loading'` with a payload. -/
def loadingZoneExample : Zone := ⟨"z3", "Zone", some "loading", some ⟨none, none, none, none⟩⟩

/-- The playing zone of the spec's selection scenario: `z2`, state
`'playing'`, with a `three_line` of Song / Artist / Album. -/
def playingZoneExample : Zone :=
  ⟨"z2", "Zone 2", some "playing",
   some ⟨none, none, none, some ⟨some "Song", some "Artist", some "Album"⟩⟩⟩

/-- Witness for C10 (amended): a playing zone with payload is emitted as
`'playing'`; a `'loading'` zone is emitted as `'stopped'`. -/
theorem claim_C10_playback_state_invariant_witness :
    (extractAndEmitNowPlaying (fun _ => "") ⟨false, []⟩ ⟨false, none, none⟩
        playingZoneExample).snap.state = "playing"
    ∧ (extractAndEmitNowPlaying (fun _ => "") ⟨false, []⟩ ⟨false, none, none⟩
        loadingZoneExample).snap.state = "stopped" :=
  ⟨(claim_C10_playback_state_invariant (fun _ => "") ⟨false, []⟩ ⟨false, none, none⟩
      playingZoneExample).2.1 rfl rfl,
   (claim_C10_playback_state_invariant (fun _ => "") ⟨false, []⟩ ⟨false, none, none⟩
      loadingZoneExample).2.2.2.1 "loading" rfl (by decide) (by decide)⟩

/-! ## Zone selection and metadata extraction (C4) -/

theorem extract_snap_meta (net : String → String) (im : ImageManager)
    (st : TMState) (zone : Zone) (np : NowPlayingData)
    (h1 : zone.now_playing = some np)
    (h2 : jsOrStr zone.state "stopped" ≠ "stopped") :
    (extractAndEmitNowPlaying net im st zone).snap.title = (extractMeta np).1
    ∧ (extractAndEmitNowPlaying net im st zone).snap.artist = (extractMeta np).2.1
    ∧ (extractAndEmitNowPlaying net im st zone).snap.album = (extractMeta np).2.2 := by
  simp only [extractAndEmitNowPlaying, h1]
  rw [if_neg h2]
  rcases hik : np.image_key with _ | k
  · exact ⟨rfl, rfl, rfl⟩
  · dsimp only
    split_ifs <;> exact ⟨rfl, rfl, rfl⟩

/-- The stopped zone of the spec's selection scenario. -/
def stoppedZoneExample : Zone := ⟨"z1", "Zone 1", some "stopped", none⟩

/-- C4: a non-empty zone list received through `zones` or through
`zones_changed` is handled by extracting from the selected zone, where
the selection takes the first zone whose state is `'playing'` or
`'paused'` and falls back to the first zone when none is active
(deterministic, as a function of the list); metadata comes positionally
from the richest line structure (`three_line` over `two_line` over
`one_line`) with absent lines defaulting to the empty string; and the
spec's two-zone scenario emits
{title Song, artist Artist, album Album, state playing} for z2. -/
theorem claim_C4_zone_selection (net : String → String) (im : ImageManager)
    (st : TMState) (z : Zone) (rest : List Zone) (zc : Option (List Zone))
    (zr : Option (List String)) (zsk : Option (List Unit))
    (zone : Zone) (np : NowPlayingData) :
    (handleZonesUpdate net im st ⟨some (z :: rest), zc, zr, zsk⟩ =
      updOfExtract (extractAndEmitNowPlaying net im
        { st with currentZoneId := some (selectZone z rest).zone_id } (selectZone z rest)))
    ∧ (handleZonesUpdate net im st ⟨none, some (z :: rest), zr, zsk⟩ =
      updOfExtract (extractAndEmitNowPlaying net im
        { st with currentZoneId := some (selectZone z rest).zone_id } (selectZone z rest)))
    ∧ (isActiveZone z = true → selectZone z rest = z)
    ∧ ((∀ a, a ∈ z :: rest → isActiveZone a = false) → selectZone z rest = z)
    ∧ (∀ z2 rest2, isActiveZone z = false → isActiveZone z2 = true →
        selectZone z (z2 :: rest2) = z2)
    ∧ (zone.now_playing = some np → jsOrStr zone.state "stopped" ≠ "stopped" →
        (∀ t3, np.three_line = some t3 →
          (extractAndEmitNowPlaying net im st zone).snap.title = orEmpty t3.line1
          ∧ (extractAndEmitNowPlaying net im st zone).snap.artist = orEmpty t3.line2
          ∧ (extractAndEmitNowPlaying net im st zone).snap.album = orEmpty t3.line3)
        ∧ (∀ t2, np.three_line = none → np.two_line = some t2 →
          (extractAndEmitNowPlaying net im st zone).snap.title = orEmpty t2.line1
          ∧ (extractAndEmitNowPlaying net im st zone).snap.artist = orEmpty t2.line2
          ∧ (extractAndEmitNowPlaying net im st zone).snap.album = "")
        ∧ (∀ t1, np.three_line = none → np.two_line = none → np.one_line = some t1 →
          (extractAndEmitNowPlaying net im st zone).snap.title = orEmpty t1.line1
          ∧ (extractAndEmitNowPlaying net im st zone).snap.artist = ""
          ∧ (extractAndEmitNowPlaying net im st zone).snap.album = "")
        ∧ (np.three_line = none → np.two_line = none → np.one_line = none →
          (extractAndEmitNowPlaying net im st zone).snap.title = ""
          ∧ (extractAndEmitNowPlaying net im st zone).snap.artist = ""
          ∧ (extractAndEmitNowPlaying net im st zone).snap.album = ""))
    ∧ (handleZonesUpdate (fun _ => "") ⟨true, []⟩ ⟨true, none, none⟩
        ⟨some [stoppedZoneExample, playingZoneExample], none, none, none⟩ =
        ⟨some ⟨"Song", "Artist", "Album", "playing", none⟩,
         ⟨true, some "z2", none⟩, ⟨true, []⟩, []⟩) := by
  refine ⟨?_, ?_, ?_, ?_, ?_, ?_, by decide⟩
  · unfold handleZonesUpdate
    split_ifs
    all_goals first
    | rfl
    | (exfalso; simp_all)
  · unfold handleZonesUpdate
    split_ifs
    all_goals first
    | rfl
    | (exfalso; simp_all)
  · intro h
    unfold selectZone
    rw [List.find?_cons_of_pos _ h]
    rfl
  · intro h
    unfold selectZone
    rw [List.find?_eq_none.mpr fun x hx => by simp [h x hx]]
    rfl
  · intro z2 rest2 h1 h2
    unfold selectZone
    rw [List.find?_cons_of_neg _ (by simp [h1]), List.find?_cons_of_pos _ h2]
    rfl
  · intro h1 h2
    obtain ⟨hT, hA, hB⟩ := extract_snap_meta net im st zone np h1 h2
    refine ⟨?_, ?_, ?_, ?_⟩
    · intro t3 ht3
      rw [hT, hA, hB]
      simp [extractMeta, ht3]
    · intro t2 h3 h4
      rw [hT, hA, hB]
      simp [extractMeta, h3, h4]
    · intro t1 h3 h4 h5
      rw [hT, hA, hB]
      simp [extractMeta, h3, h4, h5]
    · intro h3 h4 h5
      rw [hT, hA, hB]
      simp [extractMeta, h3, h4, h5]

/-- Witness for C4 at the spec's scenario data: the stopped zone is
skipped, the playing zone is selected, and its three-line title is
extracted. -/
theorem claim_C4_zone_selection_witness :
    isActiveZone stoppedZoneExample = false
    ∧ isActiveZone playingZoneExample = true
    ∧ selectZone stoppedZoneExample [playingZoneExample] = playingZoneExample
    ∧ (extractAndEmitNowPlaying (fun _ => "") ⟨true, []⟩ ⟨true, none, none⟩
        playingZoneExample).snap.title = "Song" := by
  refine ⟨by decide, by decide, ?_, ?_⟩
  · exact (claim_C4_zone_selection (fun _ => "") ⟨true, []⟩ ⟨true, none, none⟩
      stoppedZoneExample [] none none none playingZoneExample
      ⟨none, none, none, some ⟨some "Song", some "Artist", some "Album"⟩⟩).2.2.2.2.1
      playingZoneExample [] (by decide) (by decide)
  · have h := (claim_C4_zone_selection (fun _ => "") ⟨true, []⟩ ⟨true, none, none⟩
      stoppedZoneExample [] none none none playingZoneExample
      ⟨none, none, none, some ⟨some "Song", some "Artist", some "Album"⟩⟩).2.2.2.2.2.1
      rfl (by decide)
    exact (h.1 ⟨some "Song", some "Artist", some "Album"⟩ rfl).1

/-! ## Artwork fetch deduplication (C7) -/

theorem fetchArtwork_fetched_spec (net : String → String) (im : ImageManager) (k : String) :
    (fetchArtwork net im k).2.2 = []
    ∨ ((fetchArtwork net im k).2.2 = [k] ∧ lookupBy k im.cache = none) := by
  unfold fetchArtwork
  split_ifs with h
  · exact Or.inl rfl
  · rcases hl : lookupBy k im.cache with _ | a
    · simp [hl]
    · simp [hl]

theorem fetchArtwork_cache_after (net : String → String) (im : ImageManager) (k k' : String) :
    (lookupBy k' (fetchArtwork net im k).2.1.cache).isSome = true
      ↔ ((lookupBy k' im.cache).isSome = true ∨ k' ∈ (fetchArtwork net im k).2.2) := by
  unfold fetchArtwork
  split_ifs with h
  · simp
  · rcases hl : lookupBy k im.cache with _ | a
    · dsimp only
      by_cases hk : k = k'
      · subst hk
        simp [lookupBy, hl]
      · simp [lookupBy, hk, hl, Ne.symm hk]
    · simp [hl]

theorem fetchArtwork_hit (net : String → String) (im : ImageManager) (k a : String)
    (hs : im.imageService = true) (h : lookupBy k im.cache = some a) :
    fetchArtwork net im k = (some a, im, []) := by
  unfold fetchArtwork
  rw [if_neg (by simp [hs]), h]

theorem fetchArtwork_caches_key (net : String → String) (im : ImageManager) (k : String)
    (hs : im.imageService = true) :
    (lookupBy k (fetchArtwork net im k).2.1.cache).isSome = true := by
  unfold fetchArtwork
  rw [if_neg (by simp [hs])]
  rcases hl : lookupBy k im.cache with _ | a
  · simp [lookupBy]
  · simp [hl]

theorem fetchArtwork_pair_spec (net : String → String) (im : ImageManager) (k : String) :
    ((fetchArtwork net im k).2.2 = []
      ∨ ∃ k0, (fetchArtwork net im k).2.2 = [k0] ∧ lookupBy k0 im.cache = none)
    ∧ ∀ k', ((lookupBy k' (fetchArtwork net im k).2.1.cache).isSome = true
        ↔ ((lookupBy k' im.cache).isSome = true ∨ k' ∈ (fetchArtwork net im k).2.2)) := by
  constructor
  · rcases fetchArtwork_fetched_spec net im k with h | ⟨h, hn⟩
    · exact Or.inl h
    · exact Or.inr ⟨k, h, hn⟩
  · exact fun k' => fetchArtwork_cache_after net im k k'

theorem extract_fetch_spec (net : String → String) (im : ImageManager)
    (st : TMState) (zone : Zone) :
    ((extractAndEmitNowPlaying net im st zone).fetched = []
      ∨ ∃ k, (extractAndEmitNowPlaying net im st zone).fetched = [k]
          ∧ lookupBy k im.cache = none)
    ∧ ∀ k', ((lookupBy k' (extractAndEmitNowPlaying net im st zone).im.cache).isSome = true
        ↔ ((lookupBy k' im.cache).isSome = true
            ∨ k' ∈ (extractAndEmitNowPlaying net im st zone).fetched)) := by
  rcases hnp : zone.now_playing with _ | np
  · simp [extractAndEmitNowPlaying, hnp]
  · by_cases hs : jsOrStr zone.state "stopped" = "stopped"
    · simp [extractAndEmitNowPlaying, hnp, hs]
    · rcases hik : np.image_key with _ | k
      · simp [extractAndEmitNowPlaying, hnp, hs, hik]
      · simp only [extractAndEmitNowPlaying, hnp, hik]
        rw [if_neg hs]
        split_ifs with h1 h2
        · exact fetchArtwork_pair_spec net im k
        · exact fetchArtwork_pair_spec net im k
        · simp

theorem extract_cached_not_fetched (net : String → String) (im : ImageManager)
    (st : TMState) (zone : Zone) (k : String)
    (h : (lookupBy k im.cache).isSome = true) :
    k ∉ (extractAndEmitNowPlaying net im st zone).fetched := by
  rcases (extract_fetch_spec net im st zone).1 with hf | ⟨k0, hf, hn⟩
  · simp [hf]
  · rw [hf]
    intro hmem
    rw [List.mem_singleton] at hmem
    subst hmem
    rw [hn] at h
    simp at h

theorem processZones_cached_count (net : String → String) (zs : List Zone) :
    ∀ (im : ImageManager) (st : TMState) (k : String),
    (lookupBy k im.cache).isSome = true →
    List.count k (processZones net im st zs).2.2 = 0 := by
  induction zs with
  | nil => intro im st k _; simp [processZones]
  | cons z rest ih =>
    intro im st k h
    simp only [processZones, List.count_append]
    rw [List.count_eq_zero.mpr (extract_cached_not_fetched net im st z k h)]
    rw [ih _ _ k (((extract_fetch_spec net im st z).2 k).mpr (Or.inl h))]

theorem processZones_count_le_one (net : String → String) (zs : List Zone) :
    ∀ (im : ImageManager) (st : TMState) (k : String),
    List.count k (processZones net im st zs).2.2 ≤ 1 := by
  induction zs with
  | nil => intro im st k; simp [processZones]
  | cons z rest ih =>
    intro im st k
    simp only [processZones, List.count_append]
    rcases (extract_fetch_spec net im st z).1 with hf | ⟨k0, hf, hn⟩
    · rw [hf]
      simpa using ih _ _ k
    · by_cases hk : k = k0
      · subst hk
        rw [hf]
        have hc : (lookupBy k (extractAndEmitNowPlaying net im st z).im.cache).isSome = true :=
          ((extract_fetch_spec net im st z).2 k).mpr (Or.inr (by simp [hf]))
        rw [processZones_cached_count net rest _ _ k hc]
        simp
      · rw [hf, List.count_eq_zero.mpr (by simp [hk])]
        simpa using ih _ _ k

/-- C7: no cached image key is ever network-fetched again by an
extraction; on a cache hit (incoming key equal to the last emitted key and
cached) the artwork is resolved with no network fetch, yet an artwork
value is still produced for the emitted snapshot; over any sequence of
extractions each distinct key is network-fetched at most once (and never,
if already cached); and with the image service present, extraction keeps
every last-emitted key backed by a cache entry. -/
theorem claim_C7_artwork_dedup (net : String → String) (im : ImageManager)
    (st : TMState) (zone : Zone) (np : NowPlayingData) (k : String) (zs : List Zone) :
    ((lookupBy k im.cache).isSome = true →
      k ∉ (extractAndEmitNowPlaying net im st zone).fetched)
    ∧ (im.imageService = true →
       (lookupBy k im.cache).isSome = true →
       st.lastImageKey = some k →
       zone.now_playing = some np →
       np.image_key = some k →
       jsOrStr zone.state "stopped" ≠ "stopped" →
       (extractAndEmitNowPlaying net im st zone).fetched = []
       ∧ (extractAndEmitNowPlaying net im st zone).snap.artwork.isSome = true)
    ∧ List.count k (processZones net im st zs).2.2 ≤ 1
    ∧ ((lookupBy k im.cache).isSome = true →
        List.count k (processZones net im st zs).2.2 = 0)
    ∧ (im.imageService = true →
       (∀ k0, st.lastImageKey = some k0 → (lookupBy k0 im.cache).isSome = true) →
       ∀ k0, (extractAndEmitNowPlaying net im st zone).tm.lastImageKey = some k0 →
         (lookupBy k0 (extractAndEmitNowPlaying net im st zone).im.cache).isSome = true) := by
  refine ⟨fun h => extract_cached_not_fetched net im st zone k h, ?_,
    processZones_count_le_one net zs im st k,
    fun h => processZones_cached_count net zs im st k h, ?_⟩
  · intro hserv hcache hlast hnp hik hstate
    obtain ⟨a, ha⟩ := Option.isSome_iff_exists.mp hcache
    simp only [extractAndEmitNowPlaying, hnp, hik]
    rw [if_neg hstate]
    rw [if_neg (by simp [hlast]), if_pos hlast, fetchArtwork_hit net im k a hserv ha]
    exact ⟨rfl, rfl⟩
  · intro hserv hinv
    rcases hnp : zone.now_playing with _ | np0
    · intro k0 h0
      simp [extractAndEmitNowPlaying, hnp] at h0
    · by_cases hs : jsOrStr zone.state "stopped" = "stopped"
      · intro k0 h0
        simp [extractAndEmitNowPlaying, hnp, hs] at h0
      · rcases hik : np0.image_key with _ | k1
        · intro k0 h0
          simp only [extractAndEmitNowPlaying, hnp, hik] at h0 ⊢
          rw [if_neg hs] at h0 ⊢
          exact hinv k0 h0
        · intro k0 h0
          simp only [extractAndEmitNowPlaying, hnp, hik] at h0 ⊢
          rw [if_neg hs] at h0 ⊢
          split_ifs at h0 ⊢ with h1 h2
          · have hk : k0 = k1 := Option.some_injective _ h0.symm
            subst hk
            exact fetchArtwork_caches_key net im k0 hserv
          · exact (fetchArtwork_cache_after net im k1 k0).mpr (Or.inl (hinv k0 h0))
          · exact hinv k0 h0

/-- A playing zone carrying the image key `'k'`. -/
def keyedZoneExample : Zone := ⟨"z4", "Zone", some "playing", some ⟨some "k", none, none, none⟩⟩

/-- Witness for C7: with `'k'` cached and last-emitted, extracting the
keyed zone fetches nothing over the network yet still produces an artwork
value, and a sequence run fetches `'k'` zero times. -/
theorem claim_C7_artwork_dedup_witness :
    (extractAndEmitNowPlaying (fun _ => "fresh") ⟨true, [("k", "art")]⟩
        ⟨true, none, some "k"⟩ keyedZoneExample).fetched = []
    ∧ (extractAndEmitNowPlaying (fun _ => "fresh") ⟨true, [("k", "art")]⟩
        ⟨true, none, some "k"⟩ keyedZoneExample).snap.artwork.isSome = true
    ∧ List.count "k" (processZones (fun _ => "fresh") ⟨true, [("k", "art")]⟩
        ⟨true, none, some "k"⟩ [keyedZoneExample]).2.2 = 0 := by
  have h := claim_C7_artwork_dedup (fun _ => "fresh") ⟨true, [("k", "art")]⟩
    ⟨true, none, some "k"⟩ keyedZoneExample ⟨some "k", none, none, none⟩ "k"
    [keyedZoneExample]
  obtain ⟨ha, hb⟩ := h.2.1 rfl (by decide) rfl rfl rfl (by decide)
  exact ⟨ha, hb, h.2.2.2.1 (by decide)⟩

/-! ## Persisted state loader (C8) -/

theorem lookupBy_setField (fields : List (String × Json)) (k : String) (v : Json) :
    lookupBy k (setField fields k v) = some v := by
  induction fields with
  | nil => simp [setField, lookupBy]
  | cons p rest ih =>
    obtain ⟨k0, v0⟩ := p
    by_cases hk : k0 = k
    · subst hk
      simp [setField, lookupBy]
    · simp [setField, lookupBy, hk, ih]

/-- C8 counterexample: a config file parsing to `{"tokens": 5}` has a
truthy `tokens` property, so the loader returns it unchanged — its
`tokens` field is the number 5, not a non-null object, contradicting the
claimed invariant at this input. -/
theorem claim_C8_counterexample :
    tokensOf (get_persisted_state (.parsed (.jobj [("tokens", .jnum 5)])))
      = some (.jnum 5)
    ∧ isJsObject (Json.jnum 5) = false := by
  exact ⟨rfl, rfl⟩

/-- C8 (amended): the loader always returns a non-null JS object with a
present and truthy `tokens` property — an absent file and read/parse
errors yield `{tokens:{}}`, a parsed object missing the `tokens` property
gets it set to `{}` — but a pre-existing truthy `tokens` value is
returned unchanged even when it is not an object. -/
theorem claim_C8_persisted_state_loader (r : ReadResult)
    (fields : List (String × Json)) :
    isJsObject (get_persisted_state r) = true
    ∧ (∃ t, tokensOf (get_persisted_state r) = some t ∧ jsTruthy t = true)
    ∧ get_persisted_state .absent = emptyPersistedState
    ∧ get_persisted_state .readError = emptyPersistedState
    ∧ (lookupBy "tokens" fields = none →
        get_persisted_state (.parsed (.jobj fields)) =
          .jobj (setField fields "tokens" (.jobj []))) := by
  refine ⟨?_, ?_, rfl, rfl, ?_⟩
  · cases r with
    | absent => rfl
    | readError => rfl
    | parsed j =>
      cases j with
      | jnull => rfl
      | jbool b => rfl
      | jnum n => rfl
      | jstr s => rfl
      | jarr elems extra =>
        simp only [get_persisted_state]
        rcases hl : lookupBy "tokens" extra with _ | t
        · simp [hl, isJsObject]
        · simp only [hl]
          split_ifs <;> rfl
      | jobj fs =>
        simp only [get_persisted_state]
        rcases hl : lookupBy "tokens" fs with _ | t
        · simp [hl, isJsObject]
        · simp only [hl]
          split_ifs <;> rfl
  · cases r with
    | absent => exact ⟨.jobj [], rfl, rfl⟩
    | readError => exact ⟨.jobj [], rfl, rfl⟩
    | parsed j =>
      cases j with
      | jnull => exact ⟨.jobj [], rfl, rfl⟩
      | jbool b => exact ⟨.jobj [], rfl, rfl⟩
      | jnum n => exact ⟨.jobj [], rfl, rfl⟩
      | jstr s => exact ⟨.jobj [], rfl, rfl⟩
      | jarr elems extra =>
        rcases hl : lookupBy "tokens" extra with _ | t
        · refine ⟨.jobj [], ?_, rfl⟩
          simp only [get_persisted_state, hl, tokensOf]
          exact lookupBy_setField extra "tokens" (.jobj [])
        · by_cases ht : jsTruthy t = true
          · exact ⟨t, by simp [get_persisted_state, hl, ht, tokensOf], ht⟩
          · refine ⟨.jobj [], ?_, rfl⟩
            simp only [get_persisted_state, hl, tokensOf, if_neg ht]
            exact lookupBy_setField extra "tokens" (.jobj [])
      | jobj fs =>
        rcases hl : lookupBy "tokens" fs with _ | t
        · refine ⟨.jobj [], ?_, rfl⟩
          simp only [get_persisted_state, hl, tokensOf]
          exact lookupBy_setField fs "tokens" (.jobj [])
        · by_cases ht : jsTruthy t = true
          · exact ⟨t, by simp [get_persisted_state, hl, ht, tokensOf], ht⟩
          · refine ⟨.jobj [], ?_, rfl⟩
            simp only [get_persisted_state, hl, tokensOf, if_neg ht]
            exact lookupBy_setField fs "tokens" (.jobj [])
  · intro h
    simp [get_persisted_state, h]

/-- Witness for C8 (amended) at an empty parsed object: its missing
`tokens` property is filled with `{}`. -/
theorem claim_C8_persisted_state_loader_witness :
    lookupBy "tokens" ([] : List (String × Json)) = none
    ∧ get_persisted_state (.parsed (.jobj [])) =
        .jobj (setField [] "tokens" (.jobj [])) :=
  ⟨rfl, (claim_C8_persisted_state_loader (.parsed (.jobj [])) []).2.2.2.2 rfl⟩

end NowPlaying
